import Mathlib

/-!
Verification development for the stargen repository (GURPS Space 4e star
system generator).  The definitions below are shallow embeddings of the
Python source: `helpers.py` (dice and interval-table lookup),
`startrees.py` / `worldtrees.py` / `basictrees.py` (table data) and
`generator.py` (the generation pipeline).  Machine reals are modelled by
`ℚ` (every constant in the source is a decimal literal, so all the
arithmetic relevant to the claims is exact), dice draws by explicit lists
of die results threaded in call order, and Python's fallible operations by
`Option` / `Except`.
-/

namespace Stargen

/-! ## Interval-table machinery (`helpers.look_up`, intervaltree semantics)

An `intervaltree.Interval` is a (begin, end, data) record; a point query
`tree[point]` returns the set of intervals with `begin <= point < end`,
and `look_up` in `helpers.py` is `sorted(tree[point])[0].data`.  Python
sorts intervals as tuples, i.e. lexicographically by (begin, end, data);
for the tables of this repository distinct intervals never share both
endpoints, so sorting by (begin, end) picks the same first element.  An
empty query set makes `sorted(tree[point])[0]` raise a bare
`IndexError("list index out of range")`. -/

structure Ival (α : Type) where
  lo : ℚ
  hi : ℚ
  data : α
deriving DecidableEq

/-- Point membership of an intervaltree interval: `begin <= point < end`. -/
def memIval {α : Type} (i : Ival α) (p : ℚ) : Prop :=
  i.lo ≤ p ∧ p < i.hi

instance {α : Type} (i : Ival α) (p : ℚ) : Decidable (memIval i p) := by
  unfold memIval; infer_instance

/-- Lexicographic order on (begin, end) used by Python's `sorted` on
intervals. -/
def lexR {α : Type} (i j : Ival α) : Prop :=
  i.lo < j.lo ∨ (i.lo = j.lo ∧ i.hi ≤ j.hi)

instance {α : Type} : DecidableRel (@lexR α) := by
  intro i j; unfold lexR; infer_instance

theorem lexR_refl {α : Type} (i : Ival α) : lexR i i :=
  Or.inr ⟨rfl, le_refl _⟩

instance {α : Type} : IsTotal (Ival α) lexR := by
  constructor
  intro i j
  rcases lt_trichotomy i.lo j.lo with h | h | h
  · exact Or.inl (Or.inl h)
  · rcases le_total i.hi j.hi with h2 | h2
    · exact Or.inl (Or.inr ⟨h, h2⟩)
    · exact Or.inr (Or.inr ⟨h.symm, h2⟩)
  · exact Or.inr (Or.inl h)

instance {α : Type} : IsTrans (Ival α) lexR := by
  constructor
  intro i j k hij hjk
  rcases hij with h1 | ⟨e1, l1⟩
  · rcases hjk with h2 | ⟨e2, _⟩
    · exact Or.inl (lt_trans h1 h2)
    · exact Or.inl (e2 ▸ h1)
  · rcases hjk with h2 | ⟨e2, l2⟩
    · exact Or.inl (e1 ▸ h2)
    · exact Or.inr ⟨e1.trans e2, le_trans l1 l2⟩

/-- Embedding of `helpers.look_up`: `sorted(tree[point])[0].data`, with the
`IndexError` Python raises on an empty match modelled as an `Except.error`
carrying exactly the information the exception carries — the constant
message, with no reference to the table or the key. -/
def look_up {α : Type} (t : List (Ival α)) (p : ℚ) : Except String α :=
  match List.insertionSort lexR (t.filter fun i => decide (memIval i p)) with
  | [] => Except.error "list index out of range"
  | i :: _ => Except.ok i.data

/-- The source of `look_up` only reads the tree; state-threaded form making
that visible: the returned table is the argument table. -/
def look_up_run {α : Type} (t : List (Ival α)) (p : ℚ) :
    Except String α × List (Ival α) :=
  (look_up t p, t)

theorem look_up_error_iff {α : Type} (t : List (Ival α)) (p : ℚ) :
    look_up t p = Except.error "list index out of range" ↔
      ∀ i ∈ t, ¬ memIval i p := by
  unfold look_up
  rcases hs : List.insertionSort lexR (t.filter fun i => decide (memIval i p))
    with _ | ⟨i, rest⟩
  · simp only
    constructor
    · intro _ j hj hmem
      have hjf : j ∈ t.filter fun i => decide (memIval i p) :=
        List.mem_filter.mpr ⟨hj, by simpa using hmem⟩
      have hperm := List.perm_insertionSort lexR
        (t.filter fun i => decide (memIval i p))
      rw [hs] at hperm
      have : (t.filter fun i => decide (memIval i p)) = [] :=
        hperm.symm.eq_nil
      rw [this] at hjf
      cases hjf
    · intro _; trivial
  · simp only
    constructor
    · intro h; cases h
    · intro hall
      exfalso
      have hi : i ∈ List.insertionSort lexR
          (t.filter fun i => decide (memIval i p)) := by
        rw [hs]; exact List.mem_cons_self i rest
      rw [List.mem_insertionSort] at hi
      have := List.mem_filter.mp hi
      exact hall i this.1 (by simpa using this.2)

theorem look_up_min_match {α : Type} (t : List (Ival α)) (p : ℚ)
    (h : ∃ i ∈ t, memIval i p) :
    ∃ i, i ∈ t ∧ memIval i p ∧ look_up t p = Except.ok i.data ∧
      ∀ j ∈ t, memIval j p → lexR i j := by
  rcases hs : List.insertionSort lexR (t.filter fun i => decide (memIval i p))
    with _ | ⟨i, rest⟩
  · exfalso
    obtain ⟨i, hi, hm⟩ := h
    have hif : i ∈ t.filter fun i => decide (memIval i p) :=
      List.mem_filter.mpr ⟨hi, by simpa using hm⟩
    have hperm := List.perm_insertionSort lexR
      (t.filter fun i => decide (memIval i p))
    rw [hs] at hperm
    rw [hperm.symm.eq_nil] at hif
    cases hif
  · have hi : i ∈ List.insertionSort lexR
        (t.filter fun i => decide (memIval i p)) := by
      rw [hs]; exact List.mem_cons_self i rest
    rw [List.mem_insertionSort] at hi
    have hi2 := List.mem_filter.mp hi
    refine ⟨i, hi2.1, by simpa using hi2.2, ?_, ?_⟩
    · unfold look_up
      rw [hs]
    · intro j hj hmj
      have hjs : j ∈ List.insertionSort lexR
          (t.filter fun i => decide (memIval i p)) := by
        rw [List.mem_insertionSort]
        exact List.mem_filter.mpr ⟨hj, by simpa using hmj⟩
      rw [hs] at hjs
      rcases List.mem_cons.mp hjs with rfl | hjr
      · exact lexR_refl j
      · have hsorted := List.sorted_insertionSort lexR
          (t.filter fun i => decide (memIval i p))
        rw [hs] at hsorted
        exact List.rel_of_sorted_cons hsorted j hjr

/-! ## Concrete tables from `startrees.py` used by the claims

Source ranges are written `table[a : b + 1] = data` over integer rolls,
i.e. the half-open interval `[a, b + 1)`. -/

/-- Number of Stars table (`startrees.multiple_stars_tree`). -/
def multiple_stars_tree : List (Ival ℕ) :=
  [⟨3, 11, 1⟩, ⟨11, 16, 2⟩, ⟨16, 30, 3⟩]

/-- Orbital spacing table (`startrees.orbital_spacing_tree`). -/
def orbital_spacing_tree : List (Ival ℚ) :=
  [⟨3, 5, 1.4⟩, ⟨5, 7, 1.5⟩, ⟨7, 9, 1.6⟩, ⟨9, 13, 1.7⟩,
   ⟨13, 15, 1.8⟩, ⟨15, 17, 1.9⟩, ⟨17, 19, 2.0⟩]

/-- Occupant categories of `startrees.orbit_contents_tree` (a plain string
in the source for the first two, a [name, size] pair for planets). -/
inductive OrbitContent where
  | emptyOrbit
  | asteroidBelt
  | terrestrialPlanet (size : String)
deriving DecidableEq

/-- Orbit contents table (`startrees.orbit_contents_tree`). -/
def orbit_contents_tree : List (Ival OrbitContent) :=
  [⟨-100, 4, .emptyOrbit⟩, ⟨4, 7, .asteroidBelt⟩,
   ⟨7, 9, .terrestrialPlanet "Tiny"⟩, ⟨9, 12, .terrestrialPlanet "Small"⟩,
   ⟨12, 16, .terrestrialPlanet "Standard"⟩,
   ⟨16, 101, .terrestrialPlanet "Large"⟩]

/-- C6 (counterexample).  The error `look_up` raises on an out-of-domain
key is Python's bare `IndexError("list index out of range")` from indexing
the empty sorted match list: two different tables queried at two different
out-of-domain keys raise the identical, information-free error, so the
error does not identify the offending table or key. -/
theorem look_up_error_is_generic_index_error :
    look_up multiple_stars_tree 99 = Except.error "list index out of range" ∧
    look_up orbital_spacing_tree 42 = Except.error "list index out of range" := by
  constructor <;> rfl

/-- C6 (amended).  `look_up` fails exactly when the key is outside every
range of the table — it never silently returns a default — but the raised
error is the generic `IndexError` message, carrying no reference to the
table or the key. -/
theorem look_up_errors_iff_key_outside_all_ranges {α : Type}
    (t : List (Ival α)) (p : ℚ) :
    look_up t p = Except.error "list index out of range" ↔
      ∀ i ∈ t, ¬ memIval i p :=
  look_up_error_iff t p

/-- C7.  When the key lies in at least one range, `look_up` returns the
data of a matching interval that is lowest in the sort order used by
`sorted` (lexicographic on (begin, end)), and the lookup reads the table
without mutating it, so resolving twice yields identical output. -/
theorem look_up_returns_lowest_sorted_match_and_is_pure {α : Type}
    (t : List (Ival α)) (p : ℚ) (h : ∃ i ∈ t, memIval i p) :
    (∃ i, i ∈ t ∧ memIval i p ∧ look_up t p = Except.ok i.data ∧
        ∀ j ∈ t, memIval j p → lexR i j) ∧
    (look_up_run t p).2 = t ∧
    look_up (look_up_run t p).2 p = look_up t p :=
  ⟨look_up_min_match t p h, rfl, rfl⟩

/-- Witness for C7 at the number-of-stars table and key 5. -/
theorem look_up_returns_lowest_sorted_match_and_is_pure_witness :
    (∃ i ∈ multiple_stars_tree, memIval i 5) ∧
    ((∃ i, i ∈ multiple_stars_tree ∧ memIval i 5 ∧
        look_up multiple_stars_tree 5 = Except.ok i.data ∧
        ∀ j ∈ multiple_stars_tree, memIval j 5 → lexR i j) ∧
     (look_up_run multiple_stars_tree 5).2 = multiple_stars_tree ∧
     look_up (look_up_run multiple_stars_tree 5).2 5 =
       look_up multiple_stars_tree 5) :=
  ⟨by decide,
   look_up_returns_lowest_sorted_match_and_is_pure multiple_stars_tree 5
     (by decide)⟩


/-! ## Stellar evolution (`startrees.stellar_evolution_tree`,
`Star.calculate_stellar_sequence`)

A row of the table is
`[type, temp, l_min, l_max, m_span, s_span, g_span]`; absent entries are
Python `None`, modelled as `Option.none`.  Each source assignment
`stellar_evolution_tree[lo:hi] = row` becomes one `Ival` below. -/

structure EvoRow where
  stype : String
  temp : ℚ
  lmin : ℚ
  lmax : Option ℚ
  mspan : Option ℚ
  sspan : Option ℚ
  gspan : Option ℚ
deriving DecidableEq

def stellar_evolution_tree : List (Ival EvoRow) :=
  [⟨0.10, 0.15, ⟨"M7", 3100.0, 0.0012, none, none, none, none⟩⟩,
   ⟨0.15, 0.20, ⟨"M6", 3200.0, 0.0036, none, none, none, none⟩⟩,
   ⟨0.20, 0.25, ⟨"M5", 3200.0, 0.0079, none, none, none, none⟩⟩,
   ⟨0.25, 0.30, ⟨"M4", 3300.0, 0.015, none, none, none, none⟩⟩,
   ⟨0.30, 0.35, ⟨"M4", 3300.0, 0.024, none, none, none, none⟩⟩,
   ⟨0.35, 0.40, ⟨"M3", 3400.0, 0.037, none, none, none, none⟩⟩,
   ⟨0.40, 0.45, ⟨"M2", 3500.0, 0.054, none, none, none, none⟩⟩,
   ⟨0.45, 0.50, ⟨"M1", 3600.0, 0.07, some 0.08, some 70, none, none⟩⟩,
   ⟨0.50, 0.55, ⟨"M0", 3800.0, 0.09, some 0.11, some 59, none, none⟩⟩,
   ⟨0.55, 0.60, ⟨"K8", 4000.0, 0.11, some 0.15, some 50, none, none⟩⟩,
   ⟨0.60, 0.65, ⟨"K6", 4200.0, 0.13, some 0.20, some 42, none, none⟩⟩,
   ⟨0.65, 0.70, ⟨"K5", 4400.0, 0.15, some 0.25, some 37, none, none⟩⟩,
   ⟨0.70, 0.75, ⟨"K4", 4600.0, 0.19, some 0.35, some 30, none, none⟩⟩,
   ⟨0.75, 0.80, ⟨"K2", 4900.0, 0.23, some 0.48, some 24, none, none⟩⟩,
   ⟨0.80, 0.85, ⟨"K0", 5200.0, 0.28, some 0.65, some 20, none, none⟩⟩,
   ⟨0.85, 0.90, ⟨"G8", 5400.0, 0.36, some 0.84, some 17, none, none⟩⟩,
   ⟨0.90, 0.95, ⟨"G6", 5500.0, 0.45, some 1.0, some 14, none, none⟩⟩,
   ⟨0.95, 1.00, ⟨"G4", 5700.0, 0.56, some 1.3, some 12, some 1.8, some 1.1⟩⟩,
   ⟨1.00, 1.05, ⟨"G2", 5800.0, 0.68, some 1.6, some 10, some 1.6, some 1.0⟩⟩,
   ⟨1.05, 1.10, ⟨"G1", 5900.0, 0.87, some 1.9, some 8.8, some 1.4, some 0.8⟩⟩,
   ⟨1.10, 1.15, ⟨"G0", 6000.0, 1.1, some 2.2, some 7.7, some 1.2, some 0.7⟩⟩,
   ⟨1.15, 1.20, ⟨"F9", 6100.0, 1.4, some 2.6, some 6.7, some 1.0, some 0.6⟩⟩,
   ⟨1.20, 1.25, ⟨"F8", 6300.0, 1.7, some 3.0, some 5.9, some 0.9, some 0.6⟩⟩,
   ⟨1.25, 1.30, ⟨"F7", 6400.0, 2.1, some 3.5, some 5.2, some 0.8, some 0.5⟩⟩,
   ⟨1.30, 1.35, ⟨"F6", 6500.0, 2.5, some 3.9, some 4.6, some 0.7, some 0.4⟩⟩,
   ⟨1.35, 1.40, ⟨"F5", 6600.0, 3.1, some 4.5, some 4.1, some 0.6, some 0.4⟩⟩,
   ⟨1.40, 1.45, ⟨"F4", 6700.0, 3.7, some 5.1, some 3.7, some 0.6, some 0.4⟩⟩,
   ⟨1.45, 1.50, ⟨"F3", 6900.0, 4.3, some 5.7, some 3.3, some 0.5, some 0.3⟩⟩,
   ⟨1.50, 1.60, ⟨"F2", 7000.0, 5.1, some 6.5, some 3.0, some 0.5, some 0.3⟩⟩,
   ⟨1.60, 1.70, ⟨"F0", 7300.0, 6.7, some 8.2, some 2.5, some 0.4, some 0.2⟩⟩,
   ⟨1.70, 1.80, ⟨"A9", 7500.0, 8.6, some 10, some 2.1, some 0.3, some 0.2⟩⟩,
   ⟨1.80, 1.90, ⟨"A7", 7800.0, 11, some 13, some 1.8, some 0.3, some 0.2⟩⟩,
   ⟨1.90, 2.00, ⟨"A6", 8000.0, 13, some 16, some 1.5, some 0.2, some 0.1⟩⟩,
   ⟨2.00, 2.10, ⟨"A5", 8200.0, 16, some 20, some 1.3, some 0.2, some 0.1⟩⟩]

/-- The age-threshold cascade of `Star.calculate_stellar_sequence` once the
spans are known: `"D"` past `m_span + s_span + g_span`, `"III"` past
`m_span + s_span`, `"IV"` past `m_span`, else `"V"`. -/
def seqOfSpans (ms s g a : ℚ) : String :=
  if a > ms + s + g then "D"
  else if a > ms + s then "III"
  else if a > ms then "IV"
  else "V"

/-- Embedding of `Star.calculate_stellar_sequence`: look the mass up in the
stellar evolution table via `helpers.look_up`, destructure
`*_, m_span, s_span, g_span`, return `"V"` when `s_span is None`, otherwise
run the age cascade.  Python raises when the lookup fails or when `s_span`
is set but `m_span`/`g_span` are `None` (arithmetic on `None`); both are
modelled as `none`. -/
def calculate_stellar_sequence (mass age : ℚ) : Option String :=
  match look_up stellar_evolution_tree mass with
  | Except.error _ => none
  | Except.ok r =>
    match r.sspan with
    | none => some "V"
    | some s =>
      match r.mspan, r.gspan with
      | some ms, some g => some (seqOfSpans ms s g age)
      | _, _ => none

/-- Rank of a luminosity class under the order V < IV < III < D. -/
def seqRank (s : String) : ℕ :=
  if s = "V" then 0 else if s = "IV" then 1 else if s = "III" then 2 else 3

/-- A list of intervals tiles `[lo, hi)` contiguously: each interval starts
where the previous one ended and is nonempty. -/
def tiles {α : Type} : ℚ → ℚ → List (Ival α) → Prop
  | lo, hi, [] => lo = hi
  | lo, hi, i :: rest => i.lo = lo ∧ lo < i.hi ∧ tiles i.hi hi rest

theorem tiles_covers {α : Type} (t : List (Ival α)) (lo hi p : ℚ)
    (ht : tiles lo hi t) (h1 : lo ≤ p) (h2 : p < hi) :
    ∃ i ∈ t, memIval i p := by
  induction t generalizing lo with
  | nil =>
    exfalso
    simp only [tiles] at ht
    rw [ht] at h1
    exact absurd h2 (not_lt.mpr h1)
  | cons i rest ih =>
    simp only [tiles] at ht
    obtain ⟨hlo, _, hrest⟩ := ht
    by_cases hp : p < i.hi
    · exact ⟨i, List.mem_cons_self i rest, hlo ▸ h1, hp⟩
    · obtain ⟨j, hj, hm⟩ := ih i.hi hrest (not_lt.mp hp)
      exact ⟨j, List.mem_cons_of_mem i hj, hm⟩

theorem stellar_evolution_tree_tiles :
    tiles 0.10 2.10 stellar_evolution_tree := by
  norm_num [tiles, stellar_evolution_tree]

/-- Every row either has no subgiant span (the `"V"` shortcut) or has all
three spans defined, so the age cascade never hits `None` arithmetic. -/
theorem stellar_evolution_tree_rows_wf :
    ∀ i ∈ stellar_evolution_tree,
      i.data.sspan.isNone ∨ (i.data.mspan.isSome ∧ i.data.gspan.isSome) := by
  decide

theorem seqOfSpans_mem (ms s g a : ℚ) :
    seqOfSpans ms s g a = "V" ∨ seqOfSpans ms s g a = "IV" ∨
      seqOfSpans ms s g a = "III" ∨ seqOfSpans ms s g a = "D" := by
  unfold seqOfSpans
  split_ifs <;> simp

theorem seqOfSpans_mono (ms s g a1 a2 : ℚ) (h : a1 ≤ a2) :
    seqRank (seqOfSpans ms s g a1) ≤ seqRank (seqOfSpans ms s g a2) := by
  unfold seqOfSpans
  split_ifs <;> simp [seqRank] <;> linarith

theorem calculate_stellar_sequence_total (m a : ℚ)
    (hm1 : 0.10 ≤ m) (hm2 : m < 2.10) :
    ∃ r, look_up stellar_evolution_tree m = Except.ok r ∧
      (r.sspan.isNone ∨ (r.mspan.isSome ∧ r.gspan.isSome)) := by
  obtain ⟨i, hi, him, hok, _⟩ :=
    look_up_min_match stellar_evolution_tree m
      (tiles_covers stellar_evolution_tree 0.10 2.10 m
        stellar_evolution_tree_tiles hm1 hm2)
  exact ⟨i.data, hok, stellar_evolution_tree_rows_wf i hi⟩

/-- C4.  For every mass in the domain of the stellar evolution table and
every pair of ages, the computed sequence is defined, lies in
V/IV/III/D, and is non-decreasing in age under V < IV < III < D. -/
theorem stellar_sequence_in_range_and_monotone_in_age
    (m a1 a2 : ℚ) (hm1 : 0.10 ≤ m) (hm2 : m < 2.10)
    (ha0 : 0 ≤ a1) (ha : a1 ≤ a2) :
    ∃ s1 s2, calculate_stellar_sequence m a1 = some s1 ∧
      calculate_stellar_sequence m a2 = some s2 ∧
      (s1 = "V" ∨ s1 = "IV" ∨ s1 = "III" ∨ s1 = "D") ∧
      seqRank s1 ≤ seqRank s2 := by
  obtain ⟨r, hr, hwf⟩ := calculate_stellar_sequence_total m a1 hm1 hm2
  rcases hwf with hnone | ⟨hms, hgs⟩
  · rw [Option.isNone_iff_eq_none] at hnone
    exact ⟨"V", "V",
      by simp [calculate_stellar_sequence, hr, hnone],
      by simp [calculate_stellar_sequence, hr, hnone],
      Or.inl rfl, le_refl _⟩
  · rw [Option.isSome_iff_exists] at hms hgs
    obtain ⟨ms, hms⟩ := hms
    obtain ⟨g, hgs⟩ := hgs
    rcases hs : r.sspan with _ | s
    · exact ⟨"V", "V",
        by simp [calculate_stellar_sequence, hr, hs],
        by simp [calculate_stellar_sequence, hr, hs],
        Or.inl rfl, le_refl _⟩
    · exact ⟨seqOfSpans ms s g a1, seqOfSpans ms s g a2,
        by simp [calculate_stellar_sequence, hr, hs, hms, hgs],
        by simp [calculate_stellar_sequence, hr, hs, hms, hgs],
        seqOfSpans_mem ms s g a1, seqOfSpans_mono ms s g a1 a2 ha⟩

/-- Witness for C4 at mass 1.0, ages 10.0 and 13.5 (the spec's Scenarios A
and B: sequence V at age 10, D at age 13.5). -/
theorem stellar_sequence_in_range_and_monotone_in_age_witness :
    (0.10 : ℚ) ≤ 1 ∧ (1 : ℚ) < 2.10 ∧ (0 : ℚ) ≤ 10 ∧ (10 : ℚ) ≤ 13.5 ∧
    (∃ s1 s2, calculate_stellar_sequence 1 10 = some s1 ∧
      calculate_stellar_sequence 1 13.5 = some s2 ∧
      (s1 = "V" ∨ s1 = "IV" ∨ s1 = "III" ∨ s1 = "D") ∧
      seqRank s1 ≤ seqRank s2) :=
  ⟨by norm_num, by norm_num, by norm_num, by norm_num,
   stellar_sequence_in_range_and_monotone_in_age 1 10 13.5
     (by norm_num) (by norm_num) (by norm_num) (by norm_num)⟩

/-! ## `Star.__init__` and `CompanionStar.__init__` (mass/age/sequence core)

`Star.__init__(mass, age, ...)` keeps a supplied mass/age and only calls
`generate_stellar_mass` / `generate_stellar_age` when the argument is
`None`; the embedding takes the would-be generated values as explicit
parameters (`generated_mass`, `generated_age`) consumed exactly when the
corresponding argument is `none`.  After computing `sequence`, the
constructor calls `white_dwarf_death` when `sequence == "D"`; that method's
body is `self.stellar_mass = 0.9 + 0.05 * roll_dice(2, -2)` — it assigns a
NEW attribute `stellar_mass` and leaves the `mass` attribute untouched, and
the embedding mirrors the assignment target faithfully. -/

structure StarAttrs where
  mass : ℚ
  age : ℚ
  sequence : Option String
  stellar_mass : Option ℚ
deriving DecidableEq

/-- Embedding of `Star.white_dwarf_death`'s right-hand side
`0.9 + 0.05 * roll_dice(2, -2)` for die results `wd1`, `wd2`. -/
def white_dwarf_death (wd1 wd2 : ℤ) : ℚ :=
  0.9 + 0.05 * ((wd1 + wd2 - 2 : ℤ) : ℚ)

/-- Embedding of the mass/age/sequence portion of `Star.__init__`. -/
def star_init (massArg ageArg : Option ℚ) (generated_mass generated_age : ℚ)
    (wd1 wd2 : ℤ) : StarAttrs :=
  let mass := massArg.getD generated_mass
  let age := ageArg.getD generated_age
  let sequence := calculate_stellar_sequence mass age
  let stellar_mass :=
    if sequence = some "D" then some (white_dwarf_death wd1 wd2) else none
  { mass := mass, age := age, sequence := sequence,
    stellar_mass := stellar_mass }

/-- C2.  The spec says a white dwarf's mass is resampled, but
`white_dwarf_death` assigns the resampled value `0.9 + 0.05*(2d6-2)` to a
new attribute `stellar_mass` (a typo for `mass`, contradicting the method's
own docstring "Modifies the mass of a white dwarf"): a star built with
mass 1.0 and age 13.5 is classified "D", yet its `mass` attribute is still
1.0 while the resampled 1.15 (from dice 3 and 4) lands in `stellar_mass`. -/
theorem white_dwarf_death_leaves_mass_attribute_unchanged :
    (star_init (some 1) (some 13.5) 0 0 3 4).sequence = some "D" ∧
    (star_init (some 1) (some 13.5) 0 0 3 4).mass = 1 ∧
    (star_init (some 1) (some 13.5) 0 0 3 4).stellar_mass = some 1.15 ∧
    (1 : ℚ) ≠ 1.15 := by
  refine ⟨?_, rfl, ?_, by norm_num⟩ <;>
    norm_num [star_init, calculate_stellar_sequence, look_up,
      stellar_evolution_tree, memIval, seqOfSpans, white_dwarf_death,
      List.filter, List.insertionSort, List.orderedInsert]

/-- Embedding of `CompanionStar.__init__`'s mass/age wiring: the companion
sets `self.mass = self.generate_companion_mass()`,
`self.age = self.primary_star.age`, then calls
`Star.__init__(self, self.mass, self.age, ...)`, so `Star.__init__`
receives non-`None` arguments and never rolls its own; `generated_age`
stands for the age `generate_stellar_age` would have produced had it been
called. -/
def companion_star_init (primary : StarAttrs) (companion_mass : ℚ)
    (generated_mass generated_age : ℚ) (wd1 wd2 : ℤ) : StarAttrs :=
  star_init (some companion_mass) (some primary.age)
    generated_mass generated_age wd1 wd2

/-- C10.  A companion star's age equals the primary star's age exactly, and
is independent of whatever an age roll would have produced — companion ages
are copied, never rolled. -/
theorem companion_star_age_equals_primary_age
    (primary : StarAttrs) (cm gm ga gm2 ga2 : ℚ) (wd1 wd2 wd3 wd4 : ℤ) :
    (companion_star_init primary cm gm ga wd1 wd2).age = primary.age ∧
    (companion_star_init primary cm gm ga wd1 wd2).age =
      (companion_star_init primary cm gm2 ga2 wd3 wd4).age :=
  ⟨rfl, rfl⟩

/-! ## Rotation period and tidal locking
(`Terrestrial.generate_rotation_period`,
`GasGiant.generate_rotation_period`, `MajorMoon.generate_rotation_period`)

The three methods have an identical shape: a base period
`total_tidal_effect + roll_dice(3) + size modifier`, a special-rotation
override when the 3d6 roll is at least 16 or the period exceeds 36 (the
override rolls 2d6 and consults `worldtrees.special_rotation_tree` when
that roll is above 6), and a final locking step.  For a Terrestrial or a
GasGiant the locking test and the locked value use
`self.orbital_period * 365.26` (years converted to days); for a MajorMoon
they use `self.satellite_orbital_period` unconverted.
`worldtrees.special_rotation_tree`'s data cells are computed ONCE at
module import from six independent `roll_dice(1)` draws; those six die
results are the `SpecialRotationDice` parameter. -/

structure SpecialRotationDice where
  d7 : ℤ
  d8 : ℤ
  d9 : ℤ
  d10 : ℤ
  d11 : ℤ
  d12 : ℤ
deriving DecidableEq

/-- Embedding of `worldtrees.special_rotation_tree`: rolls 0-6 map to 0,
roll k in 7..12 maps to the import-time value `roll_dice(1) * c * 24` with
c in 2, 5, 10, 20, 50, 100. -/
def special_rotation_tree (imp : SpecialRotationDice) (roll : ℤ) : Option ℚ :=
  if 0 ≤ roll ∧ roll ≤ 6 then some 0
  else if roll = 7 then some (((imp.d7 * 2 * 24 : ℤ) : ℚ))
  else if roll = 8 then some (((imp.d8 * 5 * 24 : ℤ) : ℚ))
  else if roll = 9 then some (((imp.d9 * 10 * 24 : ℤ) : ℚ))
  else if roll = 10 then some (((imp.d10 * 20 * 24 : ℤ) : ℚ))
  else if roll = 11 then some (((imp.d11 * 50 * 24 : ℤ) : ℚ))
  else if roll = 12 then some (((imp.d12 * 100 * 24 : ℤ) : ℚ))
  else none

/-- `Terrestrial.calculate_rotational_period_modifier` (identical numbers
in `MajorMoon.calculate_rotational_period_modifier`). -/
def terrestrial_rotational_period_modifier (size : String) : ℤ :=
  if size = "Large" then 6
  else if size = "Standard" then 10
  else if size = "Small" then 14
  else if size = "Tiny" then 18
  else 0

/-- `MajorMoon.calculate_rotational_period_modifier`. -/
def major_moon_rotational_period_modifier (size : String) : ℤ :=
  if size = "Large" then 6
  else if size = "Standard" then 10
  else if size = "Small" then 14
  else if size = "Tiny" then 18
  else 0

/-- `GasGiant.calculate_rotational_period_modifier`. -/
def gas_giant_rotational_period_modifier (gg_type : String) : ℤ :=
  if gg_type = "Small (Gas Giant)" then 6 else 0

/-- The shared pre-locking computation: base period plus the
special-rotation override.  `rotation_period_roll` is the 3d6 total,
`special_rotation_roll` the 2d6 total drawn inside the override branch. -/
def pre_rotation_period (imp : SpecialRotationDice) (total_tidal_effect : ℤ)
    (modifier : ℤ) (rotation_period_roll special_rotation_roll : ℤ) :
    Option ℚ :=
  let rotation_period : ℚ :=
    ((total_tidal_effect + rotation_period_roll + modifier : ℤ) : ℚ)
  if rotation_period_roll ≥ 16 ∨ rotation_period > 36 then
    if special_rotation_roll > 6 then
      special_rotation_tree imp special_rotation_roll
    else some rotation_period
  else some rotation_period

/-- `Terrestrial.generate_rotation_period`: result is the rotation period
paired with `is_tidally_locked`. -/
def terrestrial_generate_rotation_period (imp : SpecialRotationDice)
    (total_tidal_effect : ℤ) (size : String) (orbital_period : ℚ)
    (rotation_period_roll special_rotation_roll : ℤ) : Option (ℚ × Bool) :=
  (pre_rotation_period imp total_tidal_effect
      (terrestrial_rotational_period_modifier size)
      rotation_period_roll special_rotation_roll).map fun rotation_period =>
    if total_tidal_effect ≥ 50 ∨ rotation_period > orbital_period * 365.26
    then (orbital_period * 365.26, true)
    else (rotation_period, false)

/-- `GasGiant.generate_rotation_period`. -/
def gas_giant_generate_rotation_period (imp : SpecialRotationDice)
    (total_tidal_effect : ℤ) (gg_type : String) (orbital_period : ℚ)
    (rotation_period_roll special_rotation_roll : ℤ) : Option (ℚ × Bool) :=
  (pre_rotation_period imp total_tidal_effect
      (gas_giant_rotational_period_modifier gg_type)
      rotation_period_roll special_rotation_roll).map fun rotation_period =>
    if total_tidal_effect ≥ 50 ∨ rotation_period > orbital_period * 365.26
    then (orbital_period * 365.26, true)
    else (rotation_period, false)

/-- `MajorMoon.generate_rotation_period`: the comparison and the locked
value use `satellite_orbital_period` with no unit conversion. -/
def major_moon_generate_rotation_period (imp : SpecialRotationDice)
    (total_tidal_effect : ℤ) (size : String) (satellite_orbital_period : ℚ)
    (rotation_period_roll special_rotation_roll : ℤ) : Option (ℚ × Bool) :=
  (pre_rotation_period imp total_tidal_effect
      (major_moon_rotational_period_modifier size)
      rotation_period_roll special_rotation_roll).map fun rotation_period =>
    if total_tidal_effect ≥ 50 ∨
        rotation_period > satellite_orbital_period
    then (satellite_orbital_period, true)
    else (rotation_period, false)

/-- C3 (counterexample).  Feeding `total_tidal_effect = 50` to a Standard
Terrestrial with `orbital_period = 1` does set `is_tidally_locked`, but the
resulting `rotation_period` is `orbital_period * 365.26 = 365.26`, not the
`orbital_period` attribute value 1 — so "rotation_period == orbital_period
exactly" is false for planets. -/
theorem tidal_locked_rotation_differs_from_orbital_period :
    terrestrial_generate_rotation_period ⟨1, 1, 1, 1, 1, 1⟩ 50 "Standard" 1
        10 6 = some (365.26, true) ∧
    (365.26 : ℚ) ≠ 1 := by
  constructor
  · norm_num [terrestrial_generate_rotation_period, pre_rotation_period,
      terrestrial_rotational_period_modifier]
  · norm_num

/-- C3 (amended).  Whenever `total_tidal_effect >= 50` or the computed
pre-locking rotation period exceeds the orbital period expressed in the
rotation-period unit (`orbital_period * 365.26` for Terrestrial and
GasGiant, `satellite_orbital_period` for MajorMoon), the body is marked
tidally locked and its rotation period is set to exactly that converted
orbital period. -/
theorem tidal_lock_sets_rotation_to_converted_orbital_period
    (imp : SpecialRotationDice) (tidal r3 sr : ℤ) (size gg_type : String)
    (orbital_period satellite_orbital_period rpT rpG rpM : ℚ)
    (hT : pre_rotation_period imp tidal
        (terrestrial_rotational_period_modifier size) r3 sr = some rpT)
    (hG : pre_rotation_period imp tidal
        (gas_giant_rotational_period_modifier gg_type) r3 sr = some rpG)
    (hM : pre_rotation_period imp tidal
        (major_moon_rotational_period_modifier size) r3 sr = some rpM)
    (hlT : tidal ≥ 50 ∨ rpT > orbital_period * 365.26)
    (hlG : tidal ≥ 50 ∨ rpG > orbital_period * 365.26)
    (hlM : tidal ≥ 50 ∨ rpM > satellite_orbital_period) :
    terrestrial_generate_rotation_period imp tidal size orbital_period r3 sr
        = some (orbital_period * 365.26, true) ∧
    gas_giant_generate_rotation_period imp tidal gg_type orbital_period r3 sr
        = some (orbital_period * 365.26, true) ∧
    major_moon_generate_rotation_period imp tidal size
        satellite_orbital_period r3 sr
        = some (satellite_orbital_period, true) := by
  refine ⟨?_, ?_, ?_⟩
  · rw [terrestrial_generate_rotation_period, hT, Option.map_some']
    rw [if_pos hlT]
  · rw [gas_giant_generate_rotation_period, hG, Option.map_some']
    rw [if_pos hlG]
  · rw [major_moon_generate_rotation_period, hM, Option.map_some']
    rw [if_pos hlM]

/-- Witness for C3 (amended) at `total_tidal_effect = 50`, Tiny size,
Large gas giant type, both orbital periods 1, rolls 3 and 2. -/
theorem tidal_lock_sets_rotation_to_converted_orbital_period_witness :
    (pre_rotation_period ⟨1, 1, 1, 1, 1, 1⟩ 50
        (terrestrial_rotational_period_modifier "Tiny") 3 2 = some 71) ∧
    (pre_rotation_period ⟨1, 1, 1, 1, 1, 1⟩ 50
        (gas_giant_rotational_period_modifier "Large (Gas Giant)") 3 2
        = some 53) ∧
    (pre_rotation_period ⟨1, 1, 1, 1, 1, 1⟩ 50
        (major_moon_rotational_period_modifier "Tiny") 3 2 = some 71) ∧
    ((50 : ℤ) ≥ 50 ∨ (71 : ℚ) > 1 * 365.26) ∧
    (terrestrial_generate_rotation_period ⟨1, 1, 1, 1, 1, 1⟩ 50 "Tiny" 1 3 2
        = some (1 * 365.26, true) ∧
     gas_giant_generate_rotation_period ⟨1, 1, 1, 1, 1, 1⟩ 50
        "Large (Gas Giant)" 1 3 2 = some (1 * 365.26, true) ∧
     major_moon_generate_rotation_period ⟨1, 1, 1, 1, 1, 1⟩ 50 "Tiny" 1 3 2
        = some (1, true)) := by
  have mT : terrestrial_rotational_period_modifier "Tiny" = 18 := rfl
  have mG : gas_giant_rotational_period_modifier "Large (Gas Giant)" = 0 :=
    rfl
  have mM : major_moon_rotational_period_modifier "Tiny" = 18 := rfl
  have hT : pre_rotation_period ⟨1, 1, 1, 1, 1, 1⟩ 50
      (terrestrial_rotational_period_modifier "Tiny") 3 2 = some 71 := by
    rw [mT]; norm_num [pre_rotation_period]
  have hG : pre_rotation_period ⟨1, 1, 1, 1, 1, 1⟩ 50
      (gas_giant_rotational_period_modifier "Large (Gas Giant)") 3 2
      = some 53 := by
    rw [mG]; norm_num [pre_rotation_period]
  have hM : pre_rotation_period ⟨1, 1, 1, 1, 1, 1⟩ 50
      (major_moon_rotational_period_modifier "Tiny") 3 2 = some 71 := by
    rw [mM]; norm_num [pre_rotation_period]
  exact ⟨hT, hG, hM, Or.inl (le_refl _),
    tidal_lock_sets_rotation_to_converted_orbital_period
      ⟨1, 1, 1, 1, 1, 1⟩ 50 3 2 "Tiny" "Large (Gas Giant)" 1 1 71 53 71
      hT hG hM (Or.inl (le_refl _)) (Or.inl (le_refl _))
      (Or.inl (le_refl _))⟩

/-! ## Orbit layout engine (`StarSystem.calculate_orbits`,
`StarSystem.in_forbidden_zone`, `StarSystem.calculate_first_orbit`)

`calculate_orbits` processes one star's slot list: starting from the
pre-seeded first orbit (or, absent one, from
`outer_limit_radius / (1 + 0.05 * roll_dice(1))`, appended unless it falls
in a forbidden zone), an inward loop repeatedly steps the radius down —
dividing by a spacing factor from `orbital_spacing_tree`, or subtracting
0.15 when the division would step by less — appending each stepped radius
that clears every forbidden zone and is at least `inner_limit_radius`,
until the radius drops below `inner_limit_radius`.  The loop body rolls
3d6 once for the comparison and, when it takes the division branch, rolls
3d6 AGAIN for the divisor, exactly as the source does.  The outward phase
restarts from the first appended slot, or — when nothing was appended —
from the source's literal re-seed expression
`(1 + 0.05 * roll_dice(1)) / outer_limit_radius` (the reciprocal of the
inward seed), appended unless in a forbidden zone and never checked
against `inner_limit_radius`; it then steps up symmetrically and finally
sorts the slots.  Dice are a list of d6 results consumed in draw order;
exhausting the list (or an out-of-domain table key) yields `none`. -/

/-- Embedding of `StarSystem.in_forbidden_zone`: true when the radius lies
inside (inclusively) any `[inner_radius, outer_radius]` pair of the
system's forbidden zone list. -/
def in_forbidden_zone : List (ℚ × ℚ) → ℚ → Prop
  | [], _ => False
  | z :: rest, radius =>
    (z.1 ≤ radius ∧ radius ≤ z.2) ∨ in_forbidden_zone rest radius

instance in_forbidden_zone_dec :
    (zs : List (ℚ × ℚ)) → (r : ℚ) → Decidable (in_forbidden_zone zs r)
  | [], _ => Decidable.isFalse (fun h => h)
  | z :: rest, r =>
    haveI : Decidable (in_forbidden_zone rest r) :=
      in_forbidden_zone_dec rest r
    inferInstanceAs (Decidable ((z.1 ≤ r ∧ r ≤ z.2) ∨
      in_forbidden_zone rest r))

/-- The inward expansion loop of `calculate_orbits` (first `while True`).
An out-of-domain spacing lookup (Python's uncaught exception) is folded to
`none` through `Except.toOption`. -/
def inward_orbits (inner : ℚ) (zones : List (ℚ × ℚ)) :
    ℚ → List ℚ → List ℤ → Option (List ℚ × List ℤ)
  | r, acc, d1 :: d2 :: d3 :: dice =>
    (look_up orbital_spacing_tree ((d1 + d2 + d3 : ℤ) : ℚ)).toOption.bind
      fun f1 =>
      if r / f1 > r - 0.15 then
        let r2 := r - 0.15
        let acc2 := if ¬ in_forbidden_zone zones r2 ∧ r2 ≥ inner
                    then acc ++ [r2] else acc
        if r2 ≥ inner then inward_orbits inner zones r2 acc2 dice
        else some (acc2, dice)
      else
        match dice with
        | d4 :: d5 :: d6 :: dice2 =>
          (look_up orbital_spacing_tree ((d4 + d5 + d6 : ℤ) : ℚ)).toOption.bind
            fun f2 =>
            let r2 := r / f2
            let acc2 := if ¬ in_forbidden_zone zones r2 ∧ r2 ≥ inner
                        then acc ++ [r2] else acc
            if r2 ≥ inner then inward_orbits inner zones r2 acc2 dice2
            else some (acc2, dice2)
        | _ => none
  | _, _, _ => none
termination_by structural r acc dice => dice

/-- The outward expansion loop of `calculate_orbits` (second `while
True`). -/
def outward_orbits (outer : ℚ) (zones : List (ℚ × ℚ)) :
    ℚ → List ℚ → List ℤ → Option (List ℚ × List ℤ)
  | r, acc, d1 :: d2 :: d3 :: dice =>
    (look_up orbital_spacing_tree ((d1 + d2 + d3 : ℤ) : ℚ)).toOption.bind
      fun f1 =>
      if r * f1 < r + 0.15 then
        let r2 := r + 0.15
        let acc2 := if ¬ in_forbidden_zone zones r2 ∧ r2 ≤ outer
                    then acc ++ [r2] else acc
        if r2 ≤ outer then outward_orbits outer zones r2 acc2 dice
        else some (acc2, dice)
      else
        match dice with
        | d4 :: d5 :: d6 :: dice2 =>
          (look_up orbital_spacing_tree ((d4 + d5 + d6 : ℤ) : ℚ)).toOption.bind
            fun f2 =>
            let r2 := r * f2
            let acc2 := if ¬ in_forbidden_zone zones r2 ∧ r2 ≤ outer
                        then acc ++ [r2] else acc
            if r2 ≤ outer then outward_orbits outer zones r2 acc2 dice2
            else some (acc2, dice2)
        | _ => none
  | _, _, _ => none
termination_by structural r acc dice => dice

/-- One star's pass of `StarSystem.calculate_orbits`: seed, inward loop,
re-seed, outward loop, sort.  `first_orbit` is the radius pre-seeded by
`calculate_first_orbit` when the star's arrangement forces a gas giant. -/
def calculate_orbits_star (inner outer : ℚ) (zones : List (ℚ × ℚ))
    (first_orbit : Option ℚ) (dice : List ℤ) : Option (List ℚ) :=
  let seeded : Option (ℚ × List ℚ × List ℤ) :=
    match first_orbit, dice with
    | some r, _ => some (r, [r], dice)
    | none, d :: dice2 =>
      let r := outer / (1 + 0.05 * (d : ℚ))
      some (r, if ¬ in_forbidden_zone zones r then [r] else [], dice2)
    | none, [] => none
  match seeded with
  | none => none
  | some (r0, acc0, dice0) =>
    match inward_orbits inner zones r0 acc0 dice0 with
    | none => none
    | some (acc1, dice1) =>
      let reseeded : Option (ℚ × List ℚ × List ℤ) :=
        match acc1, dice1 with
        | a :: _, _ => some (a, acc1, dice1)
        | [], d :: dice2 =>
          let r := (1 + 0.05 * (d : ℚ)) / outer
          some (r, if ¬ in_forbidden_zone zones r then [r] else [], dice2)
        | [], [] => none
      match reseeded with
      | none => none
      | some (r2, acc2, dice2) =>
        match outward_orbits outer zones r2 acc2 dice2 with
        | none => none
        | some (acc3, _) => some (List.insertionSort (· ≤ ·) acc3)

/-- A 3d6 total of 18 resolves to spacing factor 2.0. -/
theorem orbital_spacing_at_18 :
    look_up orbital_spacing_tree (18 : ℚ) = Except.ok 2 := by
  norm_num [look_up, orbital_spacing_tree, memIval, List.filter,
    List.insertionSort, List.orderedInsert]

set_option maxHeartbeats 1600000 in
/-- One inward iteration on three sixes, comparison roll only: the
division by 2 would step past the 0.15 floor, so 0.15 is subtracted, and
the new radius is below the inner limit, ending the loop with the slot
list unchanged. -/
theorem inward_step_sub_exit (inner : ℚ) (zones : List (ℚ × ℚ)) (r : ℚ)
    (acc : List ℚ) (rest : List ℤ)
    (htest : r / 2 > r - 0.15)
    (hlt : ¬ (r - 0.15 ≥ inner)) :
    inward_orbits inner zones r acc (6 :: 6 :: 6 :: rest)
      = some (acc, rest) := by
  norm_num at htest hlt
  conv_lhs => rw [inward_orbits.eq_def]
  norm_num [orbital_spacing_at_18, Except.toOption, htest, hlt,
    hlt.not_le]

set_option maxHeartbeats 1600000 in
/-- One inward iteration on six sixes: the comparison roll rejects the
0.15 floor, the second roll divides by 2, the stepped radius falls in a
forbidden zone (rejected) but stays at or above the inner limit, so the
loop continues. -/
theorem inward_step_div_rej (inner : ℚ) (zones : List (ℚ × ℚ)) (r : ℚ)
    (acc : List ℚ) (rest : List ℤ)
    (htest : ¬ (r / 2 > r - 0.15))
    (hz : in_forbidden_zone zones (r / 2))
    (hge : r / 2 ≥ inner) :
    inward_orbits inner zones r acc (6 :: 6 :: 6 :: 6 :: 6 :: 6 :: rest)
      = inward_orbits inner zones (r / 2) acc rest := by
  norm_num at htest hge
  conv_lhs => rw [inward_orbits.eq_def]
  norm_num [orbital_spacing_at_18, Except.toOption, htest.not_lt, hz,
    hge]

set_option maxHeartbeats 1600000 in
/-- One outward iteration on three sixes: multiplying by 2 would step by
less than 0.15, so 0.15 is added; the new radius is in a forbidden zone
(rejected) but within the outer limit, so the loop continues. -/
theorem outward_step_add_rej (outer : ℚ) (zones : List (ℚ × ℚ)) (r : ℚ)
    (acc : List ℚ) (rest : List ℤ)
    (htest : r * 2 < r + 0.15)
    (hz : in_forbidden_zone zones (r + 0.15))
    (hle : r + 0.15 ≤ outer) :
    outward_orbits outer zones r acc (6 :: 6 :: 6 :: rest)
      = outward_orbits outer zones (r + 0.15) acc rest := by
  norm_num at htest hz hle
  conv_lhs => rw [outward_orbits.eq_def]
  norm_num [orbital_spacing_at_18, Except.toOption, htest, hz, hle]

set_option maxHeartbeats 1600000 in
/-- One outward iteration on six sixes: the comparison roll rejects the
0.15 floor, the second roll multiplies by 2, the stepped radius is in a
forbidden zone (rejected) but within the outer limit, so the loop
continues. -/
theorem outward_step_mul_rej (outer : ℚ) (zones : List (ℚ × ℚ)) (r : ℚ)
    (acc : List ℚ) (rest : List ℤ)
    (htest : ¬ (r * 2 < r + 0.15))
    (hz : in_forbidden_zone zones (r * 2))
    (hle : r * 2 ≤ outer) :
    outward_orbits outer zones r acc (6 :: 6 :: 6 :: 6 :: 6 :: 6 :: rest)
      = outward_orbits outer zones (r * 2) acc rest := by
  norm_num at htest hle
  conv_lhs => rw [outward_orbits.eq_def]
  norm_num [orbital_spacing_at_18, Except.toOption, htest.not_lt, hz,
    hle]

set_option maxHeartbeats 1600000 in
/-- One outward iteration on six sixes: the multiplied radius exceeds the
outer limit, ending the loop with the slot list unchanged. -/
theorem outward_step_mul_exit (outer : ℚ) (zones : List (ℚ × ℚ)) (r : ℚ)
    (acc : List ℚ) (rest : List ℤ)
    (htest : ¬ (r * 2 < r + 0.15))
    (hgt : ¬ (r * 2 ≤ outer)) :
    outward_orbits outer zones r acc (6 :: 6 :: 6 :: 6 :: 6 :: 6 :: rest)
      = some (acc, rest) := by
  norm_num at htest hgt
  conv_lhs => rw [outward_orbits.eq_def]
  norm_num [orbital_spacing_at_18, Except.toOption, htest.not_lt,
    hgt.not_le]

/-- A dice trace of 98 sixes: every 1d6 draw is 6 and every 3d6 total is
18 (spacing factor 2.0). -/
def c5_dice : List ℤ :=
  [6, 6, 6, 6, 6, 6, 6, 6, 6, 6, 6, 6, 6, 6, 6, 6, 6, 6, 6, 6, 6, 6, 6, 6,
   6, 6, 6, 6, 6, 6, 6, 6, 6, 6, 6, 6, 6, 6, 6, 6, 6, 6, 6, 6, 6, 6, 6, 6,
   6, 6, 6, 6, 6, 6, 6, 6, 6, 6, 6, 6, 6, 6, 6, 6, 6, 6, 6, 6, 6, 6, 6, 6,
   6, 6, 6, 6, 6, 6, 6, 6, 6, 6, 6, 6, 6, 6, 6, 6, 6, 6, 6, 6, 6, 6, 6, 6,
   6, 6]

set_option maxHeartbeats 4000000 in
/-- C5.  The outward re-seed of `calculate_orbits` uses the reciprocal
expression `(1 + 0.05 * roll_dice(1)) / outer_limit_radius` (the inward
seed is `outer_limit_radius / (1 + 0.05 * roll_dice(1))`).  For a star
with `inner_limit_radius = 0.1` and `outer_limit_radius = 40` (a 1.0
solar-mass primary) whose forbidden zones `[2/3, 114]` and `[0.1, 5.1]`
swallow every inward candidate, the engine accepts the single slot
13/400 = 0.0325 AU — strictly below the inner limit and not a pre-seeded
gas-giant slot — and a fill roll of 5 places an Asteroid Belt there. -/
theorem outward_seed_slot_below_inner_limit :
    calculate_orbits_star (1/10) 40 [(2/3, 114), (1/10, 51/10)] none c5_dice
      = some [13/400] ∧
    (13/400 : ℚ) < 1/10 ∧
    look_up orbit_contents_tree 5 = Except.ok OrbitContent.asteroidBelt := by
  refine ⟨?_, by norm_num, by rfl⟩
  simp only [calculate_orbits_star, c5_dice]
  norm_num [in_forbidden_zone]
  rw [inward_step_div_rej _ _ _ _ _ (by norm_num)
    (by norm_num [in_forbidden_zone]) (by norm_num)]
  rw [inward_step_div_rej _ _ _ _ _ (by norm_num)
    (by norm_num [in_forbidden_zone]) (by norm_num)]
  rw [inward_step_div_rej _ _ _ _ _ (by norm_num)
    (by norm_num [in_forbidden_zone]) (by norm_num)]
  rw [inward_step_div_rej _ _ _ _ _ (by norm_num)
    (by norm_num [in_forbidden_zone]) (by norm_num)]
  rw [inward_step_div_rej _ _ _ _ _ (by norm_num)
    (by norm_num [in_forbidden_zone]) (by norm_num)]
  rw [inward_step_div_rej _ _ _ _ _ (by norm_num)
    (by norm_num [in_forbidden_zone]) (by norm_num)]
  rw [inward_step_div_rej _ _ _ _ _ (by norm_num)
    (by norm_num [in_forbidden_zone]) (by norm_num)]
  rw [inward_step_sub_exit _ _ _ _ _ (by norm_num) (by norm_num)]
  norm_num [in_forbidden_zone]
  rw [outward_step_add_rej _ _ _ _ _ (by norm_num)
    (by norm_num [in_forbidden_zone]) (by norm_num)]
  rw [outward_step_mul_rej _ _ _ _ _ (by norm_num)
    (by norm_num [in_forbidden_zone]) (by norm_num)]
  rw [outward_step_mul_rej _ _ _ _ _ (by norm_num)
    (by norm_num [in_forbidden_zone]) (by norm_num)]
  rw [outward_step_mul_rej _ _ _ _ _ (by norm_num)
    (by norm_num [in_forbidden_zone]) (by norm_num)]
  rw [outward_step_mul_rej _ _ _ _ _ (by norm_num)
    (by norm_num [in_forbidden_zone]) (by norm_num)]
  rw [outward_step_mul_rej _ _ _ _ _ (by norm_num)
    (by norm_num [in_forbidden_zone]) (by norm_num)]
  rw [outward_step_mul_rej _ _ _ _ _ (by norm_num)
    (by norm_num [in_forbidden_zone]) (by norm_num)]
  rw [outward_step_mul_rej _ _ _ _ _ (by norm_num)
    (by norm_num [in_forbidden_zone]) (by norm_num)]
  rw [outward_step_mul_exit _ _ _ _ _ (by norm_num) (by norm_num)]
  norm_num [List.insertionSort, List.orderedInsert]

/-! ## Major moon satellite orbits
(`MajorMoon.generate_satellite_orbital_radius`, `MajorMoon.illegal_orbit`,
`MajorMoon.readjust_satellite_orbital_radius`,
`Planet.generate_major_moons`)

A moon of a GasGiant rolls `3d6+3`, adds `2d6` when that total is at
least 15, and scales by half the planet diameter; a moon of a Terrestrial
rolls `2d6 + size modifier` and scales by `2.5 *` planet diameter.
`illegal_orbit` walks the already-placed sibling moons and reports a
violation when the new radius is within `diameter * 5` (Terrestrial host)
or `diameter * 1` (GasGiant host) of any of them;
`readjust_satellite_orbital_radius` is `while illegal: re-roll` with no
retry bound and no raise.  Dice are again an explicit trace; the loop
re-rolls until a legal radius appears or the trace is exhausted
(`none`). -/

/-- Embedding of `MajorMoon.generate_satellite_orbital_radius`; the host
planet is a GasGiant exactly when it is not a Terrestrial. -/
def generate_satellite_orbital_radius (hostIsTerrestrial : Bool)
    (size_modifier : ℤ) (planet_diameter : ℚ) (dice : List ℤ) :
    Option (ℚ × List ℤ) :=
  if hostIsTerrestrial then
    match dice with
    | d1 :: d2 :: rest =>
      some (((d1 + d2 + size_modifier : ℤ) : ℚ) * 2.5 * planet_diameter,
        rest)
    | _ => none
  else
    match dice with
    | d1 :: d2 :: d3 :: rest =>
      if d1 + d2 + d3 + 3 ≥ 15 then
        match rest with
        | d4 :: d5 :: rest2 =>
          some ((((d1 + d2 + d3 + 3) + (d4 + d5) : ℤ) : ℚ) / 2
            * planet_diameter, rest2)
        | _ => none
      else
        some (((d1 + d2 + d3 + 3 : ℤ) : ℚ) / 2 * planet_diameter, rest)
    | _ => none

/-- Embedding of `MajorMoon.illegal_orbit`: the `for` loop over the host
planet's `major_moons` with its early `return True`. -/
def illegal_orbit (hostIsTerrestrial : Bool) (planet_diameter : ℚ) :
    List ℚ → ℚ → Prop
  | [], _ => False
  | m :: rest, r =>
    |r - m| < planet_diameter * (if hostIsTerrestrial then 5 else 1) ∨
      illegal_orbit hostIsTerrestrial planet_diameter rest r

instance illegal_orbit_dec (hostIsTerrestrial : Bool)
    (planet_diameter : ℚ) :
    (siblings : List ℚ) → (r : ℚ) →
      Decidable (illegal_orbit hostIsTerrestrial planet_diameter siblings r)
  | [], _ => Decidable.isFalse (fun h => h)
  | m :: rest, r =>
    haveI : Decidable
        (illegal_orbit hostIsTerrestrial planet_diameter rest r) :=
      illegal_orbit_dec hostIsTerrestrial planet_diameter rest r
    inferInstanceAs (Decidable
      (|r - m| < planet_diameter * (if hostIsTerrestrial then 5 else 1) ∨
        illegal_orbit hostIsTerrestrial planet_diameter rest r))

theorem illegal_orbit_iff (hostIsTerrestrial : Bool) (planet_diameter : ℚ)
    (siblings : List ℚ) (r : ℚ) :
    illegal_orbit hostIsTerrestrial planet_diameter siblings r ↔
      ∃ m ∈ siblings, |r - m| <
        planet_diameter * (if hostIsTerrestrial then 5 else 1) := by
  induction siblings with
  | nil => simp [illegal_orbit]
  | cons m rest ih => simp [illegal_orbit, ih]

/-- Embedding of `MajorMoon.readjust_satellite_orbital_radius` for a
Terrestrial host: `while self.illegal_orbit() is True: re-roll`.  The
re-roll is `generate_satellite_orbital_radius`'s Terrestrial branch with
its dice consumption inlined, so each retry visibly shortens the trace;
there is no retry bound and no raise. -/
def readjust_terrestrial (size_modifier : ℤ) (planet_diameter : ℚ)
    (siblings : List ℚ) : ℚ → List ℤ → Option (ℚ × List ℤ)
  | r, dice =>
    if illegal_orbit true planet_diameter siblings r then
      match dice with
      | d1 :: d2 :: rest =>
        readjust_terrestrial size_modifier planet_diameter siblings
          (((d1 + d2 + size_modifier : ℤ) : ℚ) * 2.5 * planet_diameter)
          rest
      | _ => none
    else some (r, dice)
termination_by structural r dice => dice

/-- Embedding of `MajorMoon.readjust_satellite_orbital_radius` for a
GasGiant host; the re-roll is the GasGiant branch of
`generate_satellite_orbital_radius` with inlined dice consumption. -/
def readjust_gas_giant (size_modifier : ℤ) (planet_diameter : ℚ)
    (siblings : List ℚ) : ℚ → List ℤ → Option (ℚ × List ℤ)
  | r, dice =>
    if illegal_orbit false planet_diameter siblings r then
      match dice with
      | d1 :: d2 :: d3 :: rest =>
        if d1 + d2 + d3 + 3 ≥ 15 then
          match rest with
          | d4 :: d5 :: rest2 =>
            readjust_gas_giant size_modifier planet_diameter siblings
              ((((d1 + d2 + d3 + 3) + (d4 + d5) : ℤ) : ℚ) / 2
                * planet_diameter) rest2
          | _ => none
        else
          readjust_gas_giant size_modifier planet_diameter siblings
            (((d1 + d2 + d3 + 3 : ℤ) : ℚ) / 2 * planet_diameter) rest
      | _ => none
    else some (r, dice)
termination_by structural r dice => dice

/-- The full readjustment loop, dispatching on the host planet's class as
the source does through `isinstance`. -/
def readjust_satellite_orbital_radius (hostIsTerrestrial : Bool)
    (size_modifier : ℤ) (planet_diameter : ℚ) (siblings : List ℚ)
    (r : ℚ) (dice : List ℤ) : Option (ℚ × List ℤ) :=
  if hostIsTerrestrial then
    readjust_terrestrial size_modifier planet_diameter siblings r dice
  else
    readjust_gas_giant size_modifier planet_diameter siblings r dice

theorem readjust_terrestrial_legal (size_modifier : ℤ)
    (planet_diameter : ℚ) (siblings : List ℚ) :
    ∀ (n : ℕ) (dice : List ℤ), dice.length ≤ n → ∀ (r r2 : ℚ)
      (rest : List ℤ),
      readjust_terrestrial size_modifier planet_diameter siblings r dice
        = some (r2, rest) →
      ¬ illegal_orbit true planet_diameter siblings r2 := by
  intro n
  induction n with
  | zero =>
    intro dice hlen r r2 rest h
    have hd : dice = [] := List.length_eq_zero.mp (Nat.le_zero.mp hlen)
    subst hd
    rw [readjust_terrestrial.eq_def] at h
    simp only [] at h
    by_cases hill : illegal_orbit true planet_diameter siblings r
    · rw [if_pos hill] at h
      simp at h
    · rw [if_neg hill] at h
      cases h
      exact hill
  | succ n ih =>
    intro dice hlen r r2 rest h
    rw [readjust_terrestrial.eq_def] at h
    simp only [] at h
    by_cases hill : illegal_orbit true planet_diameter siblings r
    · rw [if_pos hill] at h
      rcases dice with _ | ⟨d1, _ | ⟨d2, rest1⟩⟩
      · simp at h
      · simp at h
      · refine ih rest1 ?_ _ _ _ h
        simp at hlen
        omega
    · rw [if_neg hill] at h
      cases h
      exact hill

theorem readjust_gas_giant_legal (size_modifier : ℤ)
    (planet_diameter : ℚ) (siblings : List ℚ) :
    ∀ (n : ℕ) (dice : List ℤ), dice.length ≤ n → ∀ (r r2 : ℚ)
      (rest : List ℤ),
      readjust_gas_giant size_modifier planet_diameter siblings r dice
        = some (r2, rest) →
      ¬ illegal_orbit false planet_diameter siblings r2 := by
  intro n
  induction n with
  | zero =>
    intro dice hlen r r2 rest h
    have hd : dice = [] := List.length_eq_zero.mp (Nat.le_zero.mp hlen)
    subst hd
    rw [readjust_gas_giant.eq_def] at h
    simp only [] at h
    by_cases hill : illegal_orbit false planet_diameter siblings r
    · rw [if_pos hill] at h
      simp at h
    · rw [if_neg hill] at h
      cases h
      exact hill
  | succ n ih =>
    intro dice hlen r r2 rest h
    rw [readjust_gas_giant.eq_def] at h
    simp only [] at h
    by_cases hill : illegal_orbit false planet_diameter siblings r
    · rw [if_pos hill] at h
      rcases dice with _ | ⟨d1, _ | ⟨d2, _ | ⟨d3, rest1⟩⟩⟩
      · simp at h
      · simp at h
      · simp at h
      · simp only [] at h
        by_cases hbig : d1 + d2 + d3 + 3 ≥ 15
        · rw [if_pos hbig] at h
          rcases rest1 with _ | ⟨d4, _ | ⟨d5, rest2⟩⟩
          · simp at h
          · simp at h
          · refine ih rest2 ?_ _ _ _ h
            simp at hlen
            omega
        · rw [if_neg hbig] at h
          refine ih rest1 ?_ _ _ _ h
          simp at hlen
          omega
    · rw [if_neg hill] at h
      cases h
      exact hill

/-- When the readjustment loop exits, the returned radius is legal with
respect to every sibling (helper shared by the C8 and C9 results). -/
theorem readjust_result_legal (hostIsTerrestrial : Bool)
    (size_modifier : ℤ) (planet_diameter : ℚ) (siblings : List ℚ)
    (r r2 : ℚ) (dice rest : List ℤ)
    (h : readjust_satellite_orbital_radius hostIsTerrestrial size_modifier
      planet_diameter siblings r dice = some (r2, rest)) :
    ¬ illegal_orbit hostIsTerrestrial planet_diameter siblings r2 := by
  rw [readjust_satellite_orbital_radius] at h
  cases hostIsTerrestrial with
  | true =>
    rw [if_pos rfl] at h
    exact readjust_terrestrial_legal size_modifier planet_diameter siblings
      dice.length dice (le_refl _) r r2 rest h
  | false =>
    rw [if_neg (by simp)] at h
    exact readjust_gas_giant_legal size_modifier planet_diameter siblings
      dice.length dice (le_refl _) r r2 rest h

/-- C8 (counterexample).  The readjustment loop has no retry bound and no
error path.  For a Terrestrial host of diameter 1 with sibling moons at
12.5, 20, 27.5 and 35 and a size modifier of 2 (a Tiny moon of a Standard
planet), all eleven radii reachable by `2d6 + 2` rolls — 10, 12.5, ...,
35 — are illegal, so `while illegal: re-roll` can never exit: a concrete
run consumes its whole dice trace, never returns a radius and never
raises. -/
theorem readjust_unbounded_in_blocked_configuration :
    (illegal_orbit true 1 [25/2, 20, 55/2, 35] 10 ∧
     illegal_orbit true 1 [25/2, 20, 55/2, 35] (25/2) ∧
     illegal_orbit true 1 [25/2, 20, 55/2, 35] 15 ∧
     illegal_orbit true 1 [25/2, 20, 55/2, 35] (35/2) ∧
     illegal_orbit true 1 [25/2, 20, 55/2, 35] 20 ∧
     illegal_orbit true 1 [25/2, 20, 55/2, 35] (45/2) ∧
     illegal_orbit true 1 [25/2, 20, 55/2, 35] 25 ∧
     illegal_orbit true 1 [25/2, 20, 55/2, 35] (55/2) ∧
     illegal_orbit true 1 [25/2, 20, 55/2, 35] 30 ∧
     illegal_orbit true 1 [25/2, 20, 55/2, 35] (65/2) ∧
     illegal_orbit true 1 [25/2, 20, 55/2, 35] 35) ∧
    readjust_satellite_orbital_radius true 2 1 [25/2, 20, 55/2, 35] 10
      [1, 1, 6, 6] = none := by
  constructor
  · refine ⟨?_, ?_, ?_, ?_, ?_, ?_, ?_, ?_, ?_, ?_, ?_⟩ <;>
      norm_num [illegal_orbit, abs_lt]
  · norm_num [readjust_satellite_orbital_radius, readjust_terrestrial,
      illegal_orbit, abs_lt]

/-- C8 (amended).  `readjust_satellite_orbital_radius` re-rolls while the
orbit is illegal, with no retry bound and no error: whenever it does
return a radius, that radius clears the diameter-scaled spacing from every
sibling, and in a configuration where every candidate radius is illegal
it never returns. -/
theorem readjust_exits_only_with_legal_radius (hostIsTerrestrial : Bool)
    (size_modifier : ℤ) (planet_diameter : ℚ) (siblings : List ℚ)
    (r r2 : ℚ) (dice rest : List ℤ)
    (h : readjust_satellite_orbital_radius hostIsTerrestrial size_modifier
      planet_diameter siblings r dice = some (r2, rest)) :
    ¬ illegal_orbit hostIsTerrestrial planet_diameter siblings r2 :=
  readjust_result_legal hostIsTerrestrial size_modifier planet_diameter
    siblings r r2 dice rest h

/-- Witness for C8 (amended): with no siblings the loop exits at once and
the result is legal. -/
theorem readjust_exits_only_with_legal_radius_witness :
    readjust_satellite_orbital_radius true 2 1 [] 10 []
      = some (10, []) ∧
    ¬ illegal_orbit true 1 [] 10 :=
  ⟨by norm_num [readjust_satellite_orbital_radius, readjust_terrestrial,
      illegal_orbit],
   readjust_exits_only_with_legal_radius true 2 1 [] 10 10 [] []
     (by norm_num [readjust_satellite_orbital_radius, readjust_terrestrial,
       illegal_orbit])⟩

/-! ## Sequential major moon construction (`Planet.generate_major_moons`,
`MajorMoon.__init__`)

`generate_major_moons` builds each MajorMoon in turn; the moon's
constructor draws a satellite orbital radius and, when at least one
sibling already exists, runs the readjustment loop.  The process below
returns the list of satellite orbital radii in construction order; `mods`
carries one size modifier per moon to build. -/

def generate_major_moons_radii (hostIsTerrestrial : Bool)
    (planet_diameter : ℚ) :
    List ℚ → List ℤ → List ℤ → Option (List ℚ)
  | placed, [], _ => some placed
  | placed, m :: mods, dice =>
    (generate_satellite_orbital_radius hostIsTerrestrial m planet_diameter
        dice).bind fun p =>
      (if 1 ≤ placed.length
       then readjust_satellite_orbital_radius hostIsTerrestrial m
         planet_diameter placed p.1 p.2
       else some p).bind fun q =>
        generate_major_moons_radii hostIsTerrestrial planet_diameter
          (placed ++ [q.1]) mods q.2
termination_by structural placed mods dice => mods

theorem build_pairwise_aux (hostIsTerrestrial : Bool)
    (planet_diameter : ℚ) :
    ∀ (mods : List ℤ) (placed : List ℚ) (dice : List ℤ) (out : List ℚ),
      List.Pairwise (fun a b =>
        planet_diameter * (if hostIsTerrestrial then 5 else 1) ≤ |a - b|)
        placed →
      generate_major_moons_radii hostIsTerrestrial planet_diameter placed
        mods dice = some out →
      List.Pairwise (fun a b =>
        planet_diameter * (if hostIsTerrestrial then 5 else 1) ≤ |a - b|)
        out := by
  intro mods
  induction mods with
  | nil =>
    intro placed dice out hp h
    rw [generate_major_moons_radii.eq_def] at h
    simp only [] at h
    cases h
    exact hp
  | cons m mods ih =>
    intro placed dice out hp h
    rw [generate_major_moons_radii.eq_def] at h
    simp only [] at h
    rcases hgen : generate_satellite_orbital_radius hostIsTerrestrial m
        planet_diameter dice with _ | ⟨r1, dice2⟩
    · rw [hgen] at h
      simp at h
    · rw [hgen] at h
      simp only [Option.some_bind] at h
      by_cases hlen1 : 1 ≤ placed.length
      · rw [if_pos hlen1] at h
        rcases hre : readjust_satellite_orbital_radius hostIsTerrestrial m
            planet_diameter placed r1 dice2 with _ | ⟨r2, dice3⟩
        · rw [hre] at h
          simp at h
        · rw [hre] at h
          simp only [Option.some_bind] at h
          have hleg := readjust_result_legal hostIsTerrestrial m
            planet_diameter placed r1 r2 dice2 dice3 hre
          have hall := (illegal_orbit_iff hostIsTerrestrial planet_diameter
            placed r2).not.mp hleg
          push_neg at hall
          have hp2 : List.Pairwise (fun a b =>
              planet_diameter * (if hostIsTerrestrial then 5 else 1)
                ≤ |a - b|) (placed ++ [r2]) := by
            rw [List.pairwise_append]
            refine ⟨hp, List.pairwise_singleton _ _, ?_⟩
            intro a ha b hb
            rw [List.mem_singleton] at hb
            subst hb
            have := hall a ha
            rw [abs_sub_comm] at this
            exact this
          exact ih (placed ++ [r2]) dice3 out hp2 h
      · rw [if_neg hlen1] at h
        simp only [Option.some_bind] at h
        have hplaced : placed = [] := by
          rcases placed with _ | ⟨x, xs⟩
          · rfl
          · exact absurd (by simp) hlen1
        subst hplaced
        refine ih ([] ++ [r1]) dice2 out ?_ h
        simp

/-- C9.  Every completed run of the sequential moon-construction process
yields satellite orbital radii that pairwise differ by at least the host
planet's diameter times 5 (Terrestrial host) or 1 (GasGiant host): each
new moon is readjusted against all previously placed siblings and earlier
radii never move. -/
theorem major_moon_radii_pairwise_separated (hostIsTerrestrial : Bool)
    (planet_diameter : ℚ) (mods dice : List ℤ) (out : List ℚ)
    (h : generate_major_moons_radii hostIsTerrestrial planet_diameter []
      mods dice = some out) :
    List.Pairwise (fun a b =>
      planet_diameter * (if hostIsTerrestrial then 5 else 1) ≤ |a - b|)
      out :=
  build_pairwise_aux hostIsTerrestrial planet_diameter mods [] dice out
    List.Pairwise.nil h

/-- Witness for C9: a Terrestrial host of diameter 1 with two moons rolled
at radii 5 and 10, which satisfy the 5-diameter spacing exactly. -/
theorem major_moon_radii_pairwise_separated_witness :
    generate_major_moons_radii true 1 [] [0, 0] [1, 1, 2, 2]
      = some [5, 10] ∧
    List.Pairwise (fun a b =>
      (1 : ℚ) * (if (true : Bool) then 5 else 1) ≤ |a - b|) [5, 10] :=
  ⟨by norm_num [generate_major_moons_radii,
      generate_satellite_orbital_radius,
      readjust_satellite_orbital_radius, readjust_terrestrial,
      illegal_orbit, abs_lt],
   major_moon_radii_pairwise_separated true 1 [0, 0] [1, 1, 2, 2] [5, 10]
     (by norm_num [generate_major_moons_radii,
       generate_satellite_orbital_radius,
       readjust_satellite_orbital_radius, readjust_terrestrial,
       illegal_orbit, abs_lt])⟩

/-! ## Module attribute resolution for `generator.py`'s table references

Python resolves `st.name` / `bt.name` by looking `name` up in the imported
module's namespace; a miss raises `AttributeError` and aborts the run.
The lists below are the complete top-level names bound in `startrees.py`
and `basictrees.py` (assignments plus the two `intervaltree` imports), and
the constants are the names `generator.py` dereferences inside
`GasGiant.generate_moons` (line 961), `Terrestrial.generate_moons`
(line 1100), `World.calculate_surface_temperature` (line 430),
`World.calculate_climate_type` (line 441) and
`World.generate_marginal_atmosphere` (line 407). -/

def startrees_module_names : List String :=
  ["Interval", "IntervalTree", "multiple_stars_tree",
   "stellar_mass_tree_first_roll_3_second_roll",
   "stellar_mass_tree_first_roll_4_second_roll",
   "stellar_mass_tree_first_roll_5_second_roll",
   "stellar_mass_tree_first_roll_6_second_roll",
   "stellar_mass_tree_first_roll_7_second_roll",
   "stellar_mass_tree_first_roll_8_second_roll",
   "stellar_mass_tree_first_roll_9_second_roll",
   "stellar_mass_tree_first_roll_10_second_roll",
   "stellar_mass_tree_first_roll_11_second_roll",
   "stellar_mass_tree_first_roll_12_second_roll",
   "stellar_mass_tree_first_roll_13_second_roll",
   "stellar_mass_tree_first_roll_14_second_roll",
   "stellar_mass_tree_first_roll",
   "stellar_mass_tree_first_roll_garden_world", "stellar_age_tree",
   "stellar_evolution_tree", "stellar_evolution_tree_reverse",
   "orbital_separation_tree", "stellar_orbital_eccentricity_tree",
   "gas_giant_arrangement_tree", "orbital_spacing_tree",
   "gas_giant_size_tree", "orbit_contents_tree", "moon_size_tree"]

def basictrees_module_names : List String :=
  ["Interval", "IntervalTree", "overall_type_tree", "world_type_tree",
   "atmospheric_pressure_categories_tree", "marginal_atmospheres_trees",
   "world_density_tree", "resource_value_tree_asteroid_belts",
   "resource_value_tree_other_worlds", "tech_level_tree",
   "colony_population_tree", "outpost_population_tree",
   "world_unity_tree", "special_conditions_tree", "society_types_tree"]

def gas_giant_generate_moons_table : String :=
  "gas_giant_moon_size_modifiers"

def terrestrial_generate_moons_table : String :=
  "terrestrial_planet_moon_size_modifier"

def surface_temperature_helper : String := "temperature_factors"

def climate_type_table : String := "world_climate_tree"

def marginal_atmosphere_table : String := "marginal_atmospheres_tree"

/-- C1 (the code bug).  The names `generator.py` dereferences when it
builds a GasGiant or Terrestrial occupant — the moon-count modifier
tables, the surface-temperature factor helper, the climate table and the
marginal-atmosphere table — are not bound in `startrees.py` or
`basictrees.py` (nor anywhere else in the repository), so every GasGiant
or Terrestrial construction raises `AttributeError` and generation aborts
instead of returning the populated StarSystem object graph. -/
theorem generator_lookups_missing_from_table_modules :
    gas_giant_generate_moons_table ∉ startrees_module_names ∧
    terrestrial_generate_moons_table ∉ startrees_module_names ∧
    surface_temperature_helper ∉ basictrees_module_names ∧
    climate_type_table ∉ basictrees_module_names ∧
    marginal_atmosphere_table ∉ basictrees_module_names := by
  decide

end Stargen
